import Mathlib

/-
Verification of the jokes-microservice repository: shallow embedding of the
four Go services (jokes, analytics, user, gateway) and proofs of the stated
behavioral properties.
-/

/-! ## Jokes service (services/jokes/main.go) -/

/-- The fixed in-memory joke list (services/jokes/main.go, `var jokes`).
Loaded at process start as a package-level literal; nothing in the program
mutates it. -/
def jokes : List String :=
  [ "Why do programmers hate nature? It has too many bugs.",
    "I told my computer I needed a break, and it said 'No problem — I'll go to sleep.'",
    "Debugging is like being the detective in a crime movie where you are also the murderer.",
    "Why do Java developers wear glasses? Because they don't C#.",
    "To understand recursion, you must first understand recursion.",
    "There are 10 types of people: those who understand binary and those who don't.",
    "Why did the programmer quit? Because they didn't get arrays.",
    "A SQL query walks into a bar, walks up to two tables and asks: 'Can I join you?'" ]

/-- Model of Go `rand.Intn n`: for `n > 0` it yields a value in `[0, n)`
(here the pseudo-random source is modelled by an arbitrary natural
`randVal`, reduced mod `n`); for `n <= 0` the Go call panics, modelled as
`none`. -/
def intn (randVal n : Nat) : Option Nat :=
  if 0 < n then some (randVal % n) else none

/-- Model of `getRandomJoke` (services/jokes/main.go): indexes the joke list
at `rand.Intn(len(jokes))`. The list is a parameter so the empty-list
behavior can be stated; the index select faults (Go panic, here `none`)
when the list is empty, with no call-time guard. Telemetry (span, latency
histogram, sleep) has no effect on the returned joke and is omitted. -/
def getRandomJokeFrom (jokeList : List String) (randVal : Nat) : Option String :=
  (intn randVal jokeList.length).bind (fun i => jokeList.get? i)

/-- `getRandomJoke` as the service runs it: over the fixed list `jokes`. -/
def getRandomJoke (randVal : Nat) : Option String :=
  getRandomJokeFrom jokes randVal

/-- JSON body of the `GET /api/v1/joke` response:
`{joke, service, timestamp}`. -/
structure JokeResponse where
  joke : String
  service : String
  timestamp : Nat
deriving DecidableEq, Repr

/-- The `GET /api/v1/joke` handler (services/jokes/main.go): returns the
selected joke with the service name and a timestamp. `none` models the
panic path of an empty list (unreachable for the fixed list). The
fire-and-forget analytics notification does not alter the response. -/
def jokeHandler (randVal now : Nat) : Option JokeResponse :=
  (getRandomJoke randVal).map (fun j =>
    { joke := j, service := "jokes-service", timestamp := now })

/-! ## Analytics service (services/analytics) -/

/-- Go int64 wraparound: normalizes an integer into
`[-2^63, 2^63)` the way Go signed-integer overflow does. -/
def wrap64 (x : Int) : Int :=
  (x + 9223372036854775808) % 18446744073709551616 - 9223372036854775808

/-- The int64 value reached by incrementing from 0 `n` times (i.e. the Go
int64 representation of the natural number `n`). -/
def i64ofNat (n : Nat) : Int :=
  ((n : Int) + 9223372036854775808) % 18446744073709551616 - 9223372036854775808

/-- The analytics `Stats` aggregate: `requests` and `totalJokes` are Go
int64 counters, `lastUpdate` a timestamp (modelled as seconds). -/
structure Stats where
  requests : Int
  totalJokes : Int
  lastUpdate : Nat
deriving DecidableEq, Repr

/-- Initial state: counters zero (package-level literal), `lastUpdate` set
to the process start time in `main`. -/
def initStats (startTime : Nat) : Stats :=
  { requests := 0, totalJokes := 0, lastUpdate := startTime }

/-- `trackEvent` (analytics service): under the exclusive lock, increments
`requests` and `totalJokes` by 1 (int64 arithmetic) and sets `lastUpdate`
to the current time. -/
def trackEvent (now : Nat) (s : Stats) : Stats :=
  { requests := wrap64 (s.requests + 1),
    totalJokes := wrap64 (s.totalJokes + 1),
    lastUpdate := now }

/-- A sequence of `POST /internal/track` calls, one per listed timestamp,
applied in order (the mutex serializes them). -/
def runTracks (times : List Nat) (s : Stats) : Stats :=
  times.foldl (fun acc t => trackEvent t acc) s

/-- JSON body of `GET /api/v1/stats`:
`{total_requests, total_jokes, last_update, uptime_seconds}`.
`last_update` holds the instant that the service renders in RFC3339 form
(string rendering of the instant is a time-library call, modelled as the
instant itself). -/
structure StatsResponse where
  total_requests : Int
  total_jokes : Int
  last_update : Nat
  uptime_seconds : Int
deriving DecidableEq, Repr

/-- `getStats` (analytics service): snapshot under the shared lock.
`uptime_seconds` is `time.Since(stats.lastUpdate)` — elapsed time since
the most recent update, not since process start. -/
def getStats (now : Nat) (s : Stats) : StatsResponse :=
  { total_requests := s.requests,
    total_jokes := s.totalJokes,
    last_update := s.lastUpdate,
    uptime_seconds := (now : Int) - (s.lastUpdate : Int) }

/-! ## Lemmas about the jokes service -/

lemma getRandomJokeFrom_mem (l : List String) (r : Nat) (j : String)
    (h : getRandomJokeFrom l r = some j) : j ∈ l := by
  unfold getRandomJokeFrom intn at h
  by_cases hl : 0 < l.length
  · simp [hl] at h
    exact List.getElem?_mem h
  · simp [hl] at h

lemma getRandomJokeFrom_isSome (l : List String) (r : Nat) (hl : l ≠ []) :
    (getRandomJokeFrom l r).isSome = true := by
  have hlen : 0 < l.length := List.length_pos.mpr hl
  unfold getRandomJokeFrom intn
  have hidx : r % l.length < l.length := Nat.mod_lt _ hlen
  simp only [hlen, if_pos, Option.bind_eq_bind, Option.some_bind, List.get?_eq_getElem?]
  rw [List.getElem?_eq_getElem hidx]
  rfl

/-- Claim C1: every joke text returned by `GET /api/v1/joke` on the jokes
service is a member of the fixed in-memory list `jokes`, which is loaded at
process start and never mutated. -/
theorem C1_joke_from_fixed_list (randVal now : Nat) (resp : JokeResponse)
    (h : jokeHandler randVal now = some resp) : resp.joke ∈ jokes := by
  unfold jokeHandler at h
  cases hj : getRandomJoke randVal with
  | none => rw [hj] at h; simp at h
  | some j =>
    rw [hj] at h
    simp at h
    have := getRandomJokeFrom_mem jokes randVal j hj
    rw [← h]
    simpa using this

/-- Witness for C1 at the concrete random draw 0. -/
theorem C1_joke_from_fixed_list_witness :
    ("Why do programmers hate nature? It has too many bugs." : String) ∈ jokes :=
  C1_joke_from_fixed_list 0 0
    { joke := "Why do programmers hate nature? It has too many bugs.",
      service := "jokes-service", timestamp := 0 } rfl

/-- Claim C8: on an empty joke list the random-index selection faults
deterministically (out-of-range, modelled as `none`) for every random
draw; on any non-empty list — in particular the fixed literal list
`jokes`, which is non-empty — it never faults. There is no call-time
guard: the safety rests solely on the startup list being non-empty. -/
theorem C8_empty_list_selection_faults (r : Nat) :
    getRandomJokeFrom [] r = none ∧
    (∀ l : List String, l ≠ [] → (getRandomJokeFrom l r).isSome = true) ∧
    jokes ≠ [] ∧
    (getRandomJoke r).isSome = true := by
  refine ⟨rfl, fun l hl => getRandomJokeFrom_isSome l r hl, by simp [jokes], ?_⟩
  exact getRandomJokeFrom_isSome jokes r (by simp [jokes])

/-- Witness for C8 at the concrete draw 5 and the fixed list. -/
theorem C8_empty_list_selection_faults_witness :
    (getRandomJokeFrom jokes 5).isSome = true :=
  (C8_empty_list_selection_faults 5).2.1 jokes (by simp [jokes])

/-! ## Lemmas about the analytics counters -/

lemma i64ofNat_zero : i64ofNat 0 = 0 := by
  unfold i64ofNat; omega

lemma wrap64_i64_succ (n : Nat) : wrap64 (i64ofNat n + 1) = i64ofNat (n + 1) := by
  unfold wrap64 i64ofNat; push_cast; omega

lemma i64ofNat_small (n : Nat) (h : n < 9223372036854775808) :
    i64ofNat n = (n : Int) := by
  unfold i64ofNat; omega

lemma i64ofNat_two63 : i64ofNat 9223372036854775808 = -9223372036854775808 := by
  unfold i64ofNat; omega

lemma runTracks_counters (ts : List Nat) (s : Stats) (n m : Nat)
    (hr : s.requests = i64ofNat n) (hj : s.totalJokes = i64ofNat m) :
    (runTracks ts s).requests = i64ofNat (n + ts.length) ∧
    (runTracks ts s).totalJokes = i64ofNat (m + ts.length) := by
  induction ts generalizing s n m with
  | nil => simpa [runTracks] using ⟨hr, hj⟩
  | cons t rest ih =>
    have hr' : (trackEvent t s).requests = i64ofNat (n + 1) := by
      simp [trackEvent, hr, wrap64_i64_succ]
    have hj' : (trackEvent t s).totalJokes = i64ofNat (m + 1) := by
      simp [trackEvent, hj, wrap64_i64_succ]
    have := ih (trackEvent t s) (n + 1) (m + 1) hr' hj'
    simpa [runTracks, Nat.add_assoc, Nat.add_comm, Nat.add_left_comm] using this

lemma runTracks_lastUpdate (ts : List Nat) (h : ts ≠ []) (s : Stats) :
    (runTracks ts s).lastUpdate = ts.getLast h := by
  induction ts generalizing s with
  | nil => exact absurd rfl h
  | cons t rest ih =>
    by_cases hr : rest = []
    · subst hr
      simp [runTracks, trackEvent]
    · have step : runTracks (t :: rest) s = runTracks rest (trackEvent t s) := rfl
      rw [step, ih hr (trackEvent t s), List.getLast_cons hr]

lemma getStats_total_requests (now : Nat) (s : Stats) :
    (getStats now s).total_requests = s.requests := rfl

lemma getStats_total_jokes (now : Nat) (s : Stats) :
    (getStats now s).total_jokes = s.totalJokes := rfl

lemma getStats_last_update (now : Nat) (s : Stats) :
    (getStats now s).last_update = s.lastUpdate := rfl

lemma getStats_uptime_seconds (now : Nat) (s : Stats) :
    (getStats now s).uptime_seconds = (now : Int) - (s.lastUpdate : Int) := rfl

/-- Counterexample to claim C2 as stated: the counters are Go int64 values,
so after exactly 2^63 track calls the stored `requests` has wrapped to
-2^63 and `GET /api/v1/stats` does not report `total_requests == N`. -/
theorem C2_track_count_counterexample :
    (getStats 0 (runTracks (List.replicate 9223372036854775808 0)
        (initStats 0))).total_requests ≠ ((9223372036854775808 : Nat) : Int) := by
  intro hc
  have hr0 : (initStats 0).requests = i64ofNat 0 := by rw [i64ofNat_zero]; rfl
  have hj0 : (initStats 0).totalJokes = i64ofNat 0 := by rw [i64ofNat_zero]; rfl
  have h := (runTracks_counters (List.replicate 9223372036854775808 0)
    (initStats 0) 0 0 hr0 hj0).1
  rw [List.length_replicate, Nat.zero_add] at h
  rw [getStats_total_requests, h, i64ofNat_two63] at hc
  omega

/-- Claim C2 (amended): after any sequence of N track calls from the
initial analytics state, `GET /api/v1/stats` reports
`total_requests == total_jokes`, and when N stays below 2^63 (no int64
overflow) both equal N. The `requests == totalJokes` invariant holds in
every reachable state with no bound on N. -/
theorem C2_track_count_amended (ts : List Nat) (t0 now : Nat) :
    (getStats now (runTracks ts (initStats t0))).total_requests =
      (getStats now (runTracks ts (initStats t0))).total_jokes ∧
    (ts.length < 9223372036854775808 →
      (getStats now (runTracks ts (initStats t0))).total_requests = (ts.length : Int) ∧
      (getStats now (runTracks ts (initStats t0))).total_jokes = (ts.length : Int)) := by
  have h := runTracks_counters ts (initStats t0) 0 0
    (by simp [initStats, i64ofNat_zero]) (by simp [initStats, i64ofNat_zero])
  have hr : (getStats now (runTracks ts (initStats t0))).total_requests
      = i64ofNat ts.length := by simpa [getStats] using h.1
  have hj : (getStats now (runTracks ts (initStats t0))).total_jokes
      = i64ofNat ts.length := by simpa [getStats] using h.2
  refine ⟨by rw [hr, hj], fun hb => ?_⟩
  rw [hr, hj, i64ofNat_small ts.length hb]
  exact ⟨rfl, rfl⟩

/-- Witness for C2 (amended) at a concrete sequence of three track calls. -/
theorem C2_track_count_amended_witness :
    (getStats 7 (runTracks [1, 2, 3] (initStats 0))).total_requests =
      (getStats 7 (runTracks [1, 2, 3] (initStats 0))).total_jokes ∧
    (getStats 7 (runTracks [1, 2, 3] (initStats 0))).total_requests = (3 : Int) := by
  have h := C2_track_count_amended [1, 2, 3] 0 7
  exact ⟨h.1, (h.2 (by norm_num)).1⟩

/-- Claim C6: `GET /api/v1/stats` reports `uptime_seconds` as the elapsed
time between the current moment and the stored `lastUpdate` (the instant
of the most recent track notification), not the time since process start;
the remaining fields are the stored `requests`, `totalJokes` and the
`lastUpdate` instant (which the service renders in RFC3339 form). -/
theorem C6_uptime_since_last_update (ts : List Nat) (t0 now : Nat) (h : ts ≠ []) :
    (getStats now (runTracks ts (initStats t0))).uptime_seconds
        = (now : Int) - (ts.getLast h : Int) ∧
    (runTracks ts (initStats t0)).lastUpdate = ts.getLast h ∧
    (getStats now (runTracks ts (initStats t0))).total_requests
        = (runTracks ts (initStats t0)).requests ∧
    (getStats now (runTracks ts (initStats t0))).total_jokes
        = (runTracks ts (initStats t0)).totalJokes ∧
    (getStats now (runTracks ts (initStats t0))).last_update
        = (runTracks ts (initStats t0)).lastUpdate ∧
    (∀ startTime : Nat, (startTime : Int) ≠ (ts.getLast h : Int) →
      (getStats now (runTracks ts (initStats t0))).uptime_seconds
          ≠ (now : Int) - (startTime : Int)) := by
  have hlast := runTracks_lastUpdate ts h (initStats t0)
  refine ⟨by simp [getStats, hlast], hlast, rfl, rfl, rfl, fun startTime hne hc => ?_⟩
  rw [show (getStats now (runTracks ts (initStats t0))).uptime_seconds
      = (now : Int) - (ts.getLast h : Int) from by simp [getStats, hlast]] at hc
  omega

/-- Witness for C6: a single track at time 3, stats read at time 10 —
uptime is 7 (since the track), not 10 (since the start time 0). -/
theorem C6_uptime_since_last_update_witness :
    (getStats 10 (runTracks [3] (initStats 0))).uptime_seconds = (10 : Int) - (3 : Int) ∧
    (getStats 10 (runTracks [3] (initStats 0))).uptime_seconds ≠ (10 : Int) - ((0 : Nat) : Int) := by
  have h := C6_uptime_since_last_update [3] 0 10 (by simp)
  refine ⟨h.1, ?_⟩
  have := h.2.2.2.2.2 0 (by norm_num [List.getLast])
  simpa using this

/-! ## User service (services/user/main.go) -/

/-- A stored favorite record: `{id, joke, user_id, created_at}`. -/
structure Favorite where
  id : String
  joke : String
  userID : String
  createdAt : Nat
deriving DecidableEq, Repr

/-- The user-service mutable state: the append-only favorites sequence and
the `user.favorites.added` metric counter. -/
structure UserState where
  favorites : List Favorite
  favoritesCount : Nat
deriving DecidableEq, Repr

/-- State at process start: `favorites = make([]Favorite, 0)`, counter 0. -/
def initUserState : UserState :=
  { favorites := [], favoritesCount := 0 }

/-- The favorite ID: `time.Now().Format("20060102150405")` — a rendering
of the creation time at second resolution (the decimal rendering of the
second timestamp models the fixed-layout time string). -/
def favoriteID (now : Nat) : String := toString now

/-- `addFavorite` (user service): under the exclusive lock, builds a
favorite with a timestamp-derived ID, appends it to the sequence and
increments the metric counter. -/
def addFavorite (now : Nat) (joke userId : String) (st : UserState) :
    Favorite × UserState :=
  let fav : Favorite :=
    { id := favoriteID now, joke := joke, userID := userId, createdAt := now }
  (fav, { favorites := st.favorites ++ [fav],
          favoritesCount := st.favoritesCount + 1 })

/-- Body of the `POST /api/v1/favorite` response: either the gin binding
validation error (the `required` tag fails when `joke` or `user_id` is
absent or empty, both decode to the empty string) or the created record. -/
inductive PostFavoriteBody where
  | validationError
  | created (fav : Favorite)
deriving DecidableEq, Repr

/-- The `POST /api/v1/favorite` handler: `ShouldBindJSON` with
`binding:"required"` on both string fields rejects a missing or empty
`joke` or `user_id` with 400 and leaves the state untouched; otherwise it
appends the new record and responds 201 with it. -/
def postFavorite (now : Nat) (joke userId : String) (st : UserState) :
    (Nat × PostFavoriteBody) × UserState :=
  if joke == "" || userId == "" then
    ((400, PostFavoriteBody.validationError), st)
  else
    let r := addFavorite now joke userId st
    ((201, PostFavoriteBody.created r.1), r.2)

/-- Go slice semantics for the accumulator in `getFavorites`:
`none` is the nil slice (never allocated, marshalled as JSON `null`),
`some l` an allocated slice; `append` allocates on first use. -/
def goAppend (s : Option (List Favorite)) (x : Favorite) : Option (List Favorite) :=
  match s with
  | none => some [x]
  | some l => some (l ++ [x])

/-- The filter condition of the `getFavorites` loop:
`userID == "" || fav.UserID == userID`. -/
def favMatch (userID : String) (f : Favorite) : Bool :=
  userID == "" || f.userID == userID

/-- `getFavorites` (user service): under the shared lock, walks the stored
sequence in order and appends every matching record to an initially nil
slice. -/
def getFavorites (userID : String) (favs : List Favorite) : Option (List Favorite) :=
  favs.foldl (fun acc f => if favMatch userID f then goAppend acc f else acc) none

/-- The list a Go slice denotes (`nil` reads as the empty list, e.g. for
`len`). -/
def sliceToList (s : Option (List Favorite)) : List Favorite := s.getD []

/-- Go `len` on the possibly-nil slice. -/
def sliceLen (s : Option (List Favorite)) : Nat := (sliceToList s).length

/-- Body of the `GET /api/v1/favorites` response:
`{favorites, count}` with status 200; `favorites` is the possibly-nil
slice (nil marshals as JSON `null`). -/
structure FavoritesListResponse where
  status : Nat
  favorites : Option (List Favorite)
  count : Nat
deriving DecidableEq, Repr

/-- The `GET /api/v1/favorites` handler: reads `user_id` from the query
(absent reads as the empty string) and responds 200 with the filtered
slice and its length. -/
def favoritesHandler (userID : String) (favs : List Favorite) : FavoritesListResponse :=
  { status := 200,
    favorites := getFavorites userID favs,
    count := sliceLen (getFavorites userID favs) }

/-! ## Lemmas about the user service -/

lemma sliceToList_goAppend (a : Option (List Favorite)) (f : Favorite) :
    sliceToList (goAppend a f) = sliceToList a ++ [f] := by
  cases a <;> simp [goAppend, sliceToList]

lemma getFavorites_foldl (userID : String) (favs : List Favorite)
    (acc : Option (List Favorite)) :
    sliceToList (favs.foldl
        (fun a f => if favMatch userID f then goAppend a f else a) acc)
      = sliceToList acc ++ favs.filter (favMatch userID) := by
  induction favs generalizing acc with
  | nil => simp
  | cons f rest ih =>
    simp only [List.foldl_cons, List.filter_cons]
    by_cases hm : favMatch userID f
    · rw [if_pos hm, if_pos hm, ih (goAppend acc f), sliceToList_goAppend]
      simp
    · rw [if_neg hm, if_neg hm, ih acc]

lemma sliceToList_getFavorites (userID : String) (favs : List Favorite) :
    sliceToList (getFavorites userID favs) = favs.filter (favMatch userID) := by
  unfold getFavorites
  rw [getFavorites_foldl]
  simp [sliceToList]

lemma getFavorites_eq_none (userID : String) (favs : List Favorite)
    (h : favs.filter (favMatch userID) = []) :
    getFavorites userID favs = none := by
  unfold getFavorites
  induction favs with
  | nil => rfl
  | cons f rest ih =>
    rw [List.filter_cons] at h
    by_cases hm : favMatch userID f
    · simp [hm] at h
    · simp only [hm, if_neg, Bool.false_eq_true, not_false_eq_true,
        List.foldl_cons, ite_false]
      exact ih (by simpa [hm] using h)

/-- Claim C3: a `POST /api/v1/favorite` whose body is missing `joke` or
`user_id` or has either field empty (both decode to the empty string under
gin binding) gets a 400 response with the validation error and leaves the
state — the favorites sequence and the counter — exactly as it was. -/
theorem C3_invalid_favorite_rejected (now : Nat) (joke userId : String)
    (st : UserState) (h : joke = "" ∨ userId = "") :
    postFavorite now joke userId st = ((400, PostFavoriteBody.validationError), st) ∧
    ((postFavorite now joke userId st).2).favorites.length = st.favorites.length := by
  have hb : (joke == "" || userId == "") = true := by
    rcases h with h | h <;> simp [h]
  constructor
  · simp [postFavorite, hb]
  · simp [postFavorite, hb]

/-- Witness for C3: empty joke, populated state — nothing changes. -/
theorem C3_invalid_favorite_rejected_witness :
    postFavorite 5 "" "u1" { favorites := [], favoritesCount := 0 }
        = ((400, PostFavoriteBody.validationError),
           { favorites := [], favoritesCount := 0 }) :=
  (C3_invalid_favorite_rejected 5 "" "u1"
    { favorites := [], favoritesCount := 0 } (Or.inl rfl)).1

/-- Demo fixture: a favorite of user u1. -/
def demoFavA : Favorite :=
  { id := "1", joke := "joke a", userID := "u1", createdAt := 1 }

/-- Demo fixture: a favorite of user u2. -/
def demoFavB : Favorite :=
  { id := "2", joke := "joke b", userID := "u2", createdAt := 2 }

/-- Demo fixture: the query string u1. -/
def uid1 : String := "u1"

/-- Demo fixture: the query string u2. -/
def uid2 : String := "u2"

/-- Claim C5: `GET /api/v1/favorites?user_id=X` returns, for non-empty X,
exactly the stored favorites whose `UserID` equals X; for empty or absent
X, all stored favorites; in both cases in original insertion order (the
result is an in-order sublist of the store, and equals the corresponding
filter of it), and the `count` field equals the number of returned
records. -/
theorem C5_favorites_query (userID : String) (favs : List Favorite) :
    (userID ≠ "" → sliceToList (getFavorites userID favs)
        = favs.filter (fun f => f.userID == userID)) ∧
    (userID = "" → sliceToList (getFavorites userID favs) = favs) ∧
    List.Sublist (sliceToList (getFavorites userID favs)) favs ∧
    (favoritesHandler userID favs).count
        = (sliceToList (getFavorites userID favs)).length ∧
    (favoritesHandler userID favs).favorites = getFavorites userID favs ∧
    (favoritesHandler userID favs).status = 200 := by
  refine ⟨fun h => ?_, fun h => ?_, ?_, rfl, rfl, rfl⟩
  · rw [sliceToList_getFavorites]
    apply List.filter_congr
    intro f _
    have : (userID == "") = false := by simpa using h
    simp [favMatch, this]
  · subst h
    rw [sliceToList_getFavorites]
    have : ∀ f ∈ favs, favMatch ("") f = true := by
      intro f _; simp [favMatch]
    simp [List.filter_eq_self.mpr this]
  · rw [sliceToList_getFavorites]
    exact List.filter_sublist favs

/-- Witness for C5 on a concrete three-element store and the query u1. -/
theorem C5_favorites_query_witness :
    sliceToList (getFavorites uid1 [demoFavA, demoFavB, demoFavA])
        = [demoFavA, demoFavB, demoFavA].filter (fun f => f.userID == uid1) ∧
    (favoritesHandler uid1 [demoFavA, demoFavB, demoFavA]).count
        = (sliceToList (getFavorites uid1 [demoFavA, demoFavB, demoFavA])).length := by
  have h := C5_favorites_query uid1 [demoFavA, demoFavB, demoFavA]
  exact ⟨h.1 (by decide), h.2.2.2.1⟩

/-- Claim C10: when no stored favorite matches the query (in particular on
an empty store), the accumulating slice is never allocated, so the handler
responds 200 with `count` 0 and a nil `favorites` slice — marshalled as
JSON `null`, not as an empty array. -/
theorem C10_no_match_nil_slice (userID : String) (favs : List Favorite)
    (h : favs.filter (favMatch userID) = []) :
    getFavorites userID favs = none ∧
    getFavorites userID favs ≠ some [] ∧
    favoritesHandler userID favs
        = { status := 200, favorites := none, count := 0 } := by
  have hn := getFavorites_eq_none userID favs h
  refine ⟨hn, by rw [hn]; simp, ?_⟩
  unfold favoritesHandler
  rw [hn]
  rfl

/-- Witness for C10: a store holding only a u1 record, queried for u2. -/
theorem C10_no_match_nil_slice_witness :
    getFavorites uid2 [demoFavA] = none ∧
    favoritesHandler uid2 [demoFavA]
        = { status := 200, favorites := none, count := 0 } := by
  have h := C10_no_match_nil_slice uid2 [demoFavA] (by decide)
  exact ⟨h.1, h.2.2⟩

/-! ## API gateway (src of the gateway service: proxyRequest, metrics
middleware, route handlers) -/

/-- Body of a gateway response: either the gin error object
(`gin.H` with an error message) or the backend bytes relayed by
`c.Data`. -/
inductive RespBody where
  | errObj (msg : String)
  | raw (payload : String)
deriving DecidableEq, Repr

/-- A gateway HTTP response: status code and body. -/
structure HttpResponse where
  status : Nat
  body : RespBody
deriving DecidableEq, Repr

/-- The outbound request `proxyRequest` builds: method and body copied from
the inbound request, URL = backend base address + fixed path, trace
context injected into the headers, Content-Type set, and the
10-second client timeout. -/
structure OutboundRequest where
  method : String
  url : String
  body : String
  headers : List (String × String)
  timeoutSeconds : Nat
deriving DecidableEq, Repr

/-- One recorded metric event: the instrument name and its attribute
labels. -/
structure MetricObservation where
  instrument : String
  labels : List (String × String)
deriving DecidableEq, Repr

/-- What the environment does to one proxied call, covering each exit path
of `proxyRequest`: the outbound request construction fails; the client
call fails (network error or timeout); a response arrives but the body
read fails; or a response with a status and body arrives intact. -/
inductive BackendBehavior where
  | buildFails
  | callFails
  | readFails (status : Nat)
  | responds (status : Nat) (respBody : String)
deriving DecidableEq, Repr

/-- Result of one `proxyRequest` call: the response written to the caller,
the outbound request actually issued (none when construction failed),
how many outbound attempts were made, and the metric observations
recorded inside `proxyRequest`. -/
structure ProxyResult where
  response : HttpResponse
  outbound : Option OutboundRequest
  outboundAttempts : Nat
  metrics : List MetricObservation
deriving DecidableEq, Repr

/-- The per-proxied-call latency observation: recorded right after
`client.Do` returns a response (before the body read), labeled by the
target service and the backend status code. -/
def proxyLatencyObs (serviceURL : String) (statusCode : Nat) : MetricObservation :=
  { instrument := "http.server.request_duration",
    labels := [("service", serviceURL), ("status_code", toString statusCode)] }

/-- The outbound request as `proxyRequest` constructs it. -/
def outboundFor (method inboundBody traceCtx serviceURL path : String) :
    OutboundRequest :=
  { method := method,
    url := "http://" ++ serviceURL ++ path,
    body := inboundBody,
    headers := [("traceparent", traceCtx), ("Content-Type", "application/json")],
    timeoutSeconds := 10 }

/-- `proxyRequest` (gateway): transcription of its control flow.
Construction failure responds 500 with an error body before any outbound
attempt; a failed `client.Do` (network error or timeout) responds 502
after the single attempt; a body-read failure responds 500 (the proxied
latency observation was already recorded); otherwise the backend status
and body are relayed verbatim. No branch retries. -/
def proxyRequest (method inboundBody traceCtx serviceURL path : String)
    (b : BackendBehavior) : ProxyResult :=
  match b with
  | BackendBehavior.buildFails =>
    { response := { status := 500, body := RespBody.errObj ("Failed to create request") },
      outbound := none, outboundAttempts := 0, metrics := [] }
  | BackendBehavior.callFails =>
    { response := { status := 502, body := RespBody.errObj ("Service unavailable") },
      outbound := some (outboundFor method inboundBody traceCtx serviceURL path),
      outboundAttempts := 1, metrics := [] }
  | BackendBehavior.readFails st =>
    { response := { status := 500, body := RespBody.errObj ("Failed to read response") },
      outbound := some (outboundFor method inboundBody traceCtx serviceURL path),
      outboundAttempts := 1, metrics := [proxyLatencyObs serviceURL st] }
  | BackendBehavior.responds st bd =>
    { response := { status := st, body := RespBody.raw bd },
      outbound := some (outboundFor method inboundBody traceCtx serviceURL path),
      outboundAttempts := 1, metrics := [proxyLatencyObs serviceURL st] }

/-- The gateway metrics middleware, run around every inbound request: after
the handler finishes it records one `http.server.request_count` increment
labeled by method, path and the written status code, and one
`http.server.request_duration` observation labeled by method and path
(the source attaches no status label to this one). -/
def middlewareMetrics (method path : String) (statusCode : Nat) :
    List MetricObservation :=
  [ { instrument := "http.server.request_count",
      labels := [("method", method), ("path", path),
                 ("status_code", toString statusCode)] },
    { instrument := "http.server.request_duration",
      labels := [("method", method), ("path", path)] } ]

/-- One inbound request on a proxied gateway route: the route handler runs
`proxyRequest` against the configured backend, then the middleware records
its two observations with the resulting status. Returns the proxy result
and all metric observations of the request, in recording order. -/
def gatewayHandleProxy (method path serviceURL backendPath inboundBody traceCtx : String)
    (b : BackendBehavior) : ProxyResult × List MetricObservation :=
  let r := proxyRequest method inboundBody traceCtx serviceURL backendPath b
  (r, r.metrics ++ middlewareMetrics method path r.response.status)

/-- Claim C4: `proxyRequest` responds 500 with an error body when the
outbound request cannot be constructed (no outbound attempt), 502 when the
outbound call fails (network error or timeout), 500 when the backend
response body cannot be read, and in every case makes at most one outbound
attempt — no retry on any path. -/
theorem C4_proxy_error_handling (method inboundBody traceCtx serviceURL path : String)
    (st : Nat) :
    (proxyRequest method inboundBody traceCtx serviceURL path
        BackendBehavior.buildFails).response
      = { status := 500, body := RespBody.errObj ("Failed to create request") } ∧
    (proxyRequest method inboundBody traceCtx serviceURL path
        BackendBehavior.buildFails).outboundAttempts = 0 ∧
    (proxyRequest method inboundBody traceCtx serviceURL path
        BackendBehavior.callFails).response
      = { status := 502, body := RespBody.errObj ("Service unavailable") } ∧
    (proxyRequest method inboundBody traceCtx serviceURL path
        BackendBehavior.callFails).outboundAttempts = 1 ∧
    (proxyRequest method inboundBody traceCtx serviceURL path
        (BackendBehavior.readFails st)).response
      = { status := 500, body := RespBody.errObj ("Failed to read response") } ∧
    (proxyRequest method inboundBody traceCtx serviceURL path
        (BackendBehavior.readFails st)).outboundAttempts = 1 ∧
    (∀ b : BackendBehavior,
      (proxyRequest method inboundBody traceCtx serviceURL path b).outboundAttempts ≤ 1) := by
  refine ⟨rfl, rfl, rfl, rfl, rfl, rfl, fun b => ?_⟩
  cases b <;> simp [proxyRequest]

/-- Claim C7: on the success path, `proxyRequest` issues exactly one
outbound request built from the configured backend base address plus the
fixed path, with the inbound method and body copied, the trace context
injected into the headers, and a 10-second timeout; and it relays the
backend status code and body verbatim to the caller. -/
theorem C7_proxy_success_relay (method inboundBody traceCtx serviceURL path
    backendBody : String) (st : Nat) :
    (proxyRequest method inboundBody traceCtx serviceURL path
        (BackendBehavior.responds st backendBody)).outbound
      = some { method := method,
               url := "http://" ++ serviceURL ++ path,
               body := inboundBody,
               headers := [("traceparent", traceCtx),
                           ("Content-Type", "application/json")],
               timeoutSeconds := 10 } ∧
    (proxyRequest method inboundBody traceCtx serviceURL path
        (BackendBehavior.responds st backendBody)).response
      = { status := st, body := RespBody.raw backendBody } ∧
    (proxyRequest method inboundBody traceCtx serviceURL path
        (BackendBehavior.responds st backendBody)).outboundAttempts = 1 := by
  exact ⟨rfl, rfl, rfl⟩

/-- Counterexample to claim C9 as stated: on a concrete successful proxied
request, no recorded latency observation carries method, path and status
code together — the middleware labels its latency observation with method
and path only (the status label is on the request-count increment, and the
proxied-call observation is labeled by service and backend status). -/
theorem C9_latency_label_counterexample :
    ¬ ∃ o ∈ (gatewayHandleProxy ("GET") "/api/v1/joke" "jokes-service.default.svc.cluster.local"
        "/api/v1/joke" "" "00-abc-def-01" (BackendBehavior.responds 200 "ok")).2,
      o.instrument = "http.server.request_duration" ∧
      ("method", "GET") ∈ o.labels ∧
      ("path", "/api/v1/joke") ∈ o.labels ∧
      ("status_code", "200") ∈ o.labels := by
  decide

/-- Claim C9 (amended): every inbound request on a proxied gateway route
records exactly one request-count increment labeled by method, path and
resulting status code, and exactly one latency observation labeled by
method and path (the source attaches no status label to it); and every
proxied call that receives a backend response records exactly one
additional latency observation labeled by target service and backend
status code, with no observation beyond these. -/
theorem C9_gateway_metrics_amended (method path serviceURL backendPath
    inboundBody traceCtx : String) (b : BackendBehavior) :
    ((gatewayHandleProxy method path serviceURL backendPath inboundBody traceCtx b).2).count
      { instrument := "http.server.request_count",
        labels := [("method", method), ("path", path),
          ("status_code", toString ((gatewayHandleProxy method path serviceURL backendPath
            inboundBody traceCtx b).1).response.status)] } = 1 ∧
    ((gatewayHandleProxy method path serviceURL backendPath inboundBody traceCtx b).2).count
      { instrument := "http.server.request_duration",
        labels := [("method", method), ("path", path)] } = 1 ∧
    (∀ st bd, b = BackendBehavior.responds st bd →
      ((gatewayHandleProxy method path serviceURL backendPath inboundBody traceCtx b).2).count
        (proxyLatencyObs serviceURL st) = 1) ∧
    (∀ st, b = BackendBehavior.readFails st →
      ((gatewayHandleProxy method path serviceURL backendPath inboundBody traceCtx b).2).count
        (proxyLatencyObs serviceURL st) = 1) ∧
    (b = BackendBehavior.buildFails ∨ b = BackendBehavior.callFails →
      ((gatewayHandleProxy method path serviceURL backendPath inboundBody traceCtx b).2).length
        = 2) ∧
    ((gatewayHandleProxy method path serviceURL backendPath inboundBody traceCtx b).2).length
        ≤ 3 := by
  refine ⟨?_, ?_, ?_, ?_, ?_, ?_⟩
  · cases b <;>
      simp [gatewayHandleProxy, proxyRequest, middlewareMetrics, proxyLatencyObs,
        List.count_cons]
  · cases b <;>
      simp [gatewayHandleProxy, proxyRequest, middlewareMetrics, proxyLatencyObs,
        List.count_cons]
  · rintro st bd rfl
    simp [gatewayHandleProxy, proxyRequest, middlewareMetrics, proxyLatencyObs,
      List.count_cons]
  · rintro st rfl
    simp [gatewayHandleProxy, proxyRequest, middlewareMetrics, proxyLatencyObs,
      List.count_cons]
  · rintro (rfl | rfl) <;>
      simp [gatewayHandleProxy, proxyRequest, middlewareMetrics]
  · cases b <;>
      simp [gatewayHandleProxy, proxyRequest, middlewareMetrics]

/-- Witness for C9 (amended) on a concrete successful proxied request. -/
theorem C9_gateway_metrics_amended_witness :
    ((gatewayHandleProxy ("GET") "/api/v1/joke" "jokes-service.default.svc.cluster.local"
        "/api/v1/joke" "" "00-abc-def-01" (BackendBehavior.responds 200 "ok")).2).count
      { instrument := "http.server.request_count",
        labels := [("method", "GET"), ("path", "/api/v1/joke"),
          ("status_code", toString ((gatewayHandleProxy ("GET") "/api/v1/joke"
            "jokes-service.default.svc.cluster.local" "/api/v1/joke" "" "00-abc-def-01"
            (BackendBehavior.responds 200 "ok")).1).response.status)] } = 1 ∧
    ((gatewayHandleProxy ("GET") "/api/v1/joke" "jokes-service.default.svc.cluster.local"
        "/api/v1/joke" "" "00-abc-def-01" (BackendBehavior.responds 200 "ok")).2).count
      (proxyLatencyObs ("jokes-service.default.svc.cluster.local") 200) = 1 := by
  have h := C9_gateway_metrics_amended ("GET") "/api/v1/joke"
    "jokes-service.default.svc.cluster.local" "/api/v1/joke" "" "00-abc-def-01"
    (BackendBehavior.responds 200 "ok")
  exact ⟨h.1, h.2.2.1 200 "ok" rfl⟩
